import Mathlib

/-!
Shallow embedding of the vaulty secret-store core (src/crypto.rs, src/storage.rs,
src/models.rs, src/app.rs).  Cryptographic primitives are modelled symbolically:
a ciphertext records the key and nonce it was produced with, and authenticated
decryption succeeds exactly when the same key and nonce are supplied.  The
operating-system random source is modelled as a counter that yields a fresh
value on every draw, and the OS keyring as an explicit state value.
-/

namespace Vaulty

/-- u64::MAX, the saturation bound of the vault revision counter. -/
def U64MAX : Nat := 2 ^ 64 - 1

/-- u8::MAX, the saturation bound of the failed-attempt counter. -/
def U8MAX : Nat := 255

/-- `revision.saturating_add(1)` on u64. -/
def satSucc (n : Nat) : Nat := min (n + 1) U64MAX

/-- models::Entry. -/
structure Entry where
  id : String
  name : String
  email : String
  password : String
  username : Option String
  notes : Option String
deriving DecidableEq

/-- models::Note. -/
structure Note where
  id : String
  title : String
  content : String
deriving DecidableEq

/-- models::Vault.  `revision` is a u64 in the source. -/
structure Vault where
  revision : Nat
  entries : List Entry
  notes : List Note
deriving DecidableEq

/-- crypto::KdfParams (= storage::KdfSpec, same three u32 fields). -/
structure KdfParams where
  m_cost : Nat
  t_cost : Nat
  p_cost : Nat
deriving DecidableEq

/-- crypto::KdfParams::default(): 19 MiB, 2 passes, 1 lane. -/
def KdfParams.default : KdfParams := ⟨19 * 1024, 2, 1⟩

/-- Validity of Argon2 parameters as checked by `Params::new` (positive costs,
memory at least 8 blocks per lane). -/
def KdfParams.valid (p : KdfParams) : Bool :=
  decide (1 ≤ p.t_cost) && decide (1 ≤ p.p_cost) && decide (8 * p.p_cost ≤ p.m_cost)

/-- Symbolic 32-byte keys: either the Argon2id derivation of a passphrase with a
salt and cost parameters, or a raw random key (a DEK, or the legacy keyring key). -/
inductive KeyVal where
  | derived (pass : String) (salt : Nat) (params : KdfParams)
  | raw (id : Nat)
deriving DecidableEq

/-- Plaintext byte strings that occur in the program: a serde-serialized vault,
a 32-byte DEK, or arbitrary other bytes. -/
inductive Plain where
  | vaultBytes (v : Vault)
  | dekBytes (id : Nat)
  | junk (id : Nat)
deriving DecidableEq

/-- A ChaCha20-Poly1305 ciphertext, modelled symbolically: it remembers the key
and nonce used to produce it, and decryption authenticates by comparing both. -/
structure Ciphertext where
  key : KeyVal
  nonce : Nat
  plain : Plain
deriving DecidableEq

/-- A base64 string field: either a valid encoding of a value or a malformed
string on which base64 decoding fails. -/
inductive B64 (α : Type) where
  | val (a : α)
  | malformed (id : Nat)
deriving DecidableEq

/-- Error kinds.  Each constructor stands for a distinct error message produced
by the source (anyhow messages are distinguished by their text). -/
inductive VErr where
  | decryptionFailed
  | base64Decode
  | saltEncoding
  | unsupportedVersion (v : Nat)
  | parseError
  | wrappedKeyLen
  | keyDerivation
  | passwordMismatch
  | rollbackDetected (loaded : Nat) (trusted : Nat)
  | vaultNotFound
  | keyringRead
  | keyringWrite
deriving DecidableEq

/-- base64 decoding of a field (the `.decode(..)?` calls). -/
def b64decode {α : Type} : B64 α → Except VErr α
  | .val a => .ok a
  | .malformed _ => .error .base64Decode

/-- models::EncryptedVault: `{salt, nonce, data}`, all base64 strings. -/
structure EncryptedVault where
  salt : B64 Nat
  nonce : B64 Nat
  data : B64 Ciphertext
deriving DecidableEq

/-- crypto::derive_key_with_params. -/
def derive_key_with_params (master_password : String) (salt : Nat)
    (params : KdfParams) : Except VErr KeyVal :=
  if params.valid then .ok (.derived master_password salt params)
  else .error .keyDerivation

/-- crypto::encrypt_with_key.  Draws a fresh nonce from the random source; the
`salt` field is the empty-array placeholder (modelled as `val 0`). -/
def encrypt_with_key (key : KeyVal) (plaintext : Plain) (rng : Nat) :
    EncryptedVault × Nat :=
  (⟨.val 0, .val rng, .val ⟨key, rng, plaintext⟩⟩, rng + 1)

/-- crypto::decrypt_with_key.  Base64 failures propagate with their own error;
an authentication failure is the single generic message. -/
def decrypt_with_key (key : KeyVal) (enc : EncryptedVault) : Except VErr Plain :=
  match b64decode enc.nonce with
  | .error e => .error e
  | .ok nonce =>
    match b64decode enc.data with
    | .error e => .error e
    | .ok ct =>
      if ct.key = key ∧ ct.nonce = nonce then .ok ct.plain
      else .error .decryptionFailed

/-- crypto::encrypt_with_password (legacy): draws a fresh salt and nonce,
derives the key with default parameters. -/
def encrypt_with_password (master_password : String) (plaintext : Plain)
    (rng : Nat) : Except VErr (EncryptedVault × Nat) :=
  match derive_key_with_params master_password rng KdfParams.default with
  | .error e => .error e
  | .ok key =>
    .ok (⟨.val rng, .val (rng + 1), .val ⟨key, rng + 1, plaintext⟩⟩, rng + 2)

/-- crypto::decrypt_with_password (legacy). -/
def decrypt_with_password (master_password : String) (enc : EncryptedVault) :
    Except VErr Plain :=
  match b64decode enc.salt with
  | .error e => .error e
  | .ok salt =>
    match b64decode enc.nonce with
    | .error e => .error e
    | .ok nonce =>
      match b64decode enc.data with
      | .error e => .error e
      | .ok ct =>
        match derive_key_with_params master_password salt KdfParams.default with
        | .error e => .error e
        | .ok key =>
          if ct.key = key ∧ ct.nonce = nonce then .ok ct.plain
          else .error .decryptionFailed

/-- storage::VAULT_FORMAT_VERSION. -/
def VAULT_FORMAT_VERSION : Nat := 2

/-- storage::WrappedVaultFile. -/
structure WrappedVaultFile where
  version : Nat
  kdf : KdfParams
  kdf_salt : B64 Nat
  wrapped_key : EncryptedVault
  vault : EncryptedVault
deriving DecidableEq

/-- The parsed JSON object of a vault file: each field is present or absent.
The first five fields are those of the wrapped-v2 shape, the last three those
of the legacy single-layer `EncryptedVault` shape. -/
structure VaultFileRaw where
  version : Option Nat
  kdf : Option KdfParams
  kdf_salt : Option (B64 Nat)
  wrapped_key : Option EncryptedVault
  vault : Option EncryptedVault
  salt : Option (B64 Nat)
  nonce : Option (B64 Nat)
  data : Option (B64 Ciphertext)
deriving DecidableEq

/-- storage::is_wrapped_vault_file: structural detection, all five wrapped
fields present in the parsed JSON object. -/
def is_wrapped_vault_file (raw : VaultFileRaw) : Bool :=
  raw.version.isSome && raw.kdf.isSome && raw.kdf_salt.isSome &&
    raw.wrapped_key.isSome && raw.vault.isSome

/-- serde deserialization of a parsed JSON object as a WrappedVaultFile. -/
def parse_wrapped (raw : VaultFileRaw) : Except VErr WrappedVaultFile :=
  match raw.version, raw.kdf, raw.kdf_salt, raw.wrapped_key, raw.vault with
  | some v, some k, some s, some wk, some va => .ok ⟨v, k, s, wk, va⟩
  | _, _, _, _, _ => .error .parseError

/-- serde deserialization of a parsed JSON object as a legacy EncryptedVault. -/
def parse_legacy (raw : VaultFileRaw) : Except VErr EncryptedVault :=
  match raw.salt, raw.nonce, raw.data with
  | some s, some n, some d => .ok ⟨s, n, d⟩
  | _, _, _ => .error .parseError

/-- storage::load_vault: parse as wrapped file, check the version, decode the
KDF salt, derive the KEK with the file's embedded parameters, unwrap the DEK,
decrypt the vault body, deserialize. -/
def load_vault (raw : VaultFileRaw) (master_password : String) :
    Except VErr Vault :=
  match parse_wrapped raw with
  | .error e => .error e
  | .ok wrapped =>
    if wrapped.version ≠ VAULT_FORMAT_VERSION then
      .error (.unsupportedVersion wrapped.version)
    else
      match b64decode wrapped.kdf_salt with
      | .error _ => .error .saltEncoding
      | .ok salt =>
        match derive_key_with_params master_password salt wrapped.kdf with
        | .error e => .error e
        | .ok kek =>
          match decrypt_with_key kek wrapped.wrapped_key with
          | .error e => .error e
          | .ok (.dekBytes dek) =>
            match decrypt_with_key (.raw dek) wrapped.vault with
            | .error e => .error e
            | .ok (.vaultBytes v) => .ok v
            | .ok _ => .error .parseError
          | .ok _ => .error .wrappedKeyLen

/-- storage::load_vault_with_key: parse as a legacy single-layer record and
decrypt with a raw 32-byte key. -/
def load_vault_with_key (raw : VaultFileRaw) (key : Nat) : Except VErr Vault :=
  match parse_legacy raw with
  | .error e => .error e
  | .ok enc =>
    match decrypt_with_key (.raw key) enc with
    | .error e => .error e
    | .ok (.vaultBytes v) => .ok v
    | .ok _ => .error .parseError

/-- storage::save_vault: fresh KDF salt, KEK derivation with default
parameters, fresh DEK, wrap the DEK under the KEK, encrypt the serialized
vault under the DEK.  Random draws in source order: salt, DEK, nonce of the
wrapped-key record, nonce of the vault record. -/
def save_vault (vault : Vault) (master_password : String) (rng : Nat) :
    Except VErr (WrappedVaultFile × Nat) :=
  match derive_key_with_params master_password rng KdfParams.default with
  | .error e => .error e
  | .ok kek =>
    let dek := rng + 1
    let wkp := encrypt_with_key kek (.dekBytes dek) (rng + 2)
    let vp := encrypt_with_key (.raw dek) (.vaultBytes vault) wkp.2
    .ok (⟨VAULT_FORMAT_VERSION, KdfParams.default, .val rng, wkp.1, vp.1⟩, vp.2)

/-- storage::load_vault_legacy: parse as a legacy single-layer record and
decrypt with the password-derived legacy scheme. -/
def load_vault_legacy (raw : VaultFileRaw) (master_password : String) :
    Except VErr Vault :=
  match parse_legacy raw with
  | .error e => .error e
  | .ok enc =>
    match decrypt_with_password master_password enc with
    | .error e => .error e
    | .ok (.vaultBytes v) => .ok v
    | .ok _ => .error .parseError

/-- State of one keyring entry: absent (`NoEntry`), present with a value, or a
read that fails with a keyring error (including undecodable stored values). -/
inductive StoreVal where
  | absent
  | present (n : Nat)
  | failed
deriving DecidableEq

/-- The external secret store: the `vault-revision` entry, the `vault-key`
entry, and whether writes to the revision entry succeed. -/
structure Keyring where
  revEntry : StoreVal
  keyEntry : StoreVal
  revWriteOk : Bool
deriving DecidableEq

/-- storage::load_trusted_revision. -/
def load_trusted_revision (kr : Keyring) : Except VErr (Option Nat) :=
  match kr.revEntry with
  | .absent => .ok none
  | .present n => .ok (some n)
  | .failed => .error .keyringRead

/-- storage::store_trusted_revision. -/
def store_trusted_revision (revision : Nat) (kr : Keyring) :
    Except VErr Keyring :=
  if kr.revWriteOk then .ok { kr with revEntry := .present revision }
  else .error .keyringWrite

/-- The `let _ = store_trusted_revision(..)` best-effort write: a failure is
ignored and leaves the store unchanged. -/
def store_trusted_revision_best_effort (revision : Nat) (kr : Keyring) : Keyring :=
  match store_trusted_revision revision kr with
  | .ok kr2 => kr2
  | .error _ => kr

/-- storage::load_wrapped_key (the legacy raw key in the keyring). -/
def load_wrapped_key (kr : Keyring) : Except VErr (Option Nat) :=
  match kr.keyEntry with
  | .absent => .ok none
  | .present k => .ok (some k)
  | .failed => .error .keyringRead

/-- A stored argon2 password hash, modelled by the password it hashes. -/
structure MasterHash where
  pass : String
deriving DecidableEq

/-- models::Meta. -/
structure Meta where
  master_hash : MasterHash
deriving DecidableEq

/-- app::verify_master: argon2 verification of the passphrase against the
stored hash. -/
def verify_master (master : String) (stored : MasterHash) : Except VErr Unit :=
  if master = stored.pass then .ok () else .error .passwordMismatch

/-- app::verify_loaded_revision.  A keyring read error is swallowed (returns
Ok); an absent entry is seeded; a present entry triggers the comparison, with a
best-effort advance when the loaded revision is strictly greater. -/
def verify_loaded_revision (vault : Vault) (kr : Keyring) :
    Except VErr Unit × Keyring :=
  match load_trusted_revision kr with
  | .error _ => (.ok (), kr)
  | .ok (some trusted) =>
    if vault.revision < trusted then
      (.error (.rollbackDetected vault.revision trusted), kr)
    else if trusted < vault.revision then
      (.ok (), store_trusted_revision_best_effort vault.revision kr)
    else (.ok (), kr)
  | .ok none => (.ok (), store_trusted_revision_best_effort vault.revision kr)

/-- Serialization of a WrappedVaultFile back to a parsed JSON object: exactly
the five wrapped fields are present. -/
def WrappedVaultFile.toRaw (w : WrappedVaultFile) : VaultFileRaw :=
  ⟨some w.version, some w.kdf, some w.kdf_salt, some w.wrapped_key, some w.vault,
    none, none, none⟩

/-- The mutable world visible to the core: the vault file, the legacy meta
file, the lock file, the random source, and the keyring. -/
structure Sys where
  vaultFile : Option VaultFileRaw
  metaFile : Option Meta
  lockFile : Option Nat
  rng : Nat
  kr : Keyring
deriving DecidableEq

/-- app::persist_vault_with_revision: increment the revision (saturating),
save the vault in wrapped-v2 form, best-effort record the new revision as
trusted. -/
def persist_vault_with_revision (vault : Vault) (master_password : String)
    (st : Sys) : Except VErr Vault × Sys :=
  let v2 : Vault := { vault with revision := satSucc vault.revision }
  match save_vault v2 master_password st.rng with
  | .error e => (.error e, st)
  | .ok (w, rng2) =>
    (.ok v2,
      { st with
        vaultFile := some w.toRaw
        rng := rng2
        kr := store_trusted_revision_best_effort v2.revision st.kr })

/-- The inner vault-body decryption of the legacy-meta branch of
app::attempt_unlock: try the keyring raw key first when present, fall back to
password-derived legacy decryption only when that decryption fails; a keyring
read error propagates. -/
def legacy_body_load (raw : VaultFileRaw) (password : String) (kr : Keyring) :
    Except VErr Vault :=
  match load_wrapped_key kr with
  | .error e => .error e
  | .ok (some k) =>
    match load_vault_with_key raw k with
    | .ok v => .ok v
    | .error _ => load_vault_legacy raw password
  | .ok none => load_vault_legacy raw password

/-- app::attempt_unlock: dispatch on file shape in fixed priority order
(wrapped v2, legacy meta, oldest legacy), migrate-by-re-persist on the legacy
branches, then verify the loaded revision. -/
def attempt_unlock (st : Sys) (password : String) : Except VErr Vault × Sys :=
  match st.vaultFile with
  | none => (.error .vaultNotFound, st)
  | some raw =>
    if is_wrapped_vault_file raw then
      match load_vault raw password with
      | .error e => (.error e, st)
      | .ok v =>
        match verify_loaded_revision v st.kr with
        | (.error e, kr2) => (.error e, { st with kr := kr2 })
        | (.ok _, kr2) => (.ok v, { st with kr := kr2 })
    else
      match st.metaFile with
      | some meta =>
        match verify_master password meta.master_hash with
        | .error e => (.error e, st)
        | .ok _ =>
          match legacy_body_load raw password st.kr with
          | .error e => (.error e, st)
          | .ok v =>
            match persist_vault_with_revision v password st with
            | (.error e, st2) => (.error e, st2)
            | (.ok v2, st2) =>
              match verify_loaded_revision v2 st2.kr with
              | (.error e, kr3) => (.error e, { st2 with kr := kr3 })
              | (.ok _, kr3) => (.ok v2, { st2 with kr := kr3 })
      | none =>
        match load_vault_legacy raw password with
        | .error e => (.error e, st)
        | .ok v =>
          match persist_vault_with_revision v password st with
          | (.error e, st2) => (.error e, st2)
          | (.ok v2, st2) =>
            match verify_loaded_revision v2 st2.kr with
            | (.error e, kr3) => (.error e, { st2 with kr := kr3 })
            | (.ok _, kr3) => (.ok v2, { st2 with kr := kr3 })

/-- app::MAX_ATTEMPTS. -/
def MAX_ATTEMPTS : Nat := 3

/-- app::LOCK_SECONDS. -/
def LOCK_SECONDS : Nat := 120

/-- Outcome of storage::ensure_lock_not_active: refuse (process exit with the
remaining wait) or proceed (clearing an expired lock). -/
inductive Gate where
  | refused (remaining : Nat)
  | proceed
deriving DecidableEq

/-- storage::ensure_lock_not_active: consult the lock file against the clock. -/
def ensure_lock_not_active (st : Sys) (now : Nat) : Gate × Sys :=
  match st.lockFile with
  | some u =>
    if now < u then (.refused (u - now), st)
    else (.proceed, { st with lockFile := none })
  | none => (.proceed, st)

/-- Result of one process invocation of the unlock screen. -/
inductive SessionResult where
  | lockedOut (remaining : Nat)
  | unlocked (v : Vault)
  | lockSet (unlock_at : Nat)
  | pending
deriving DecidableEq

/-- The Enter-key loop of app::unlock_screen: each submitted passphrase runs
attempt_unlock; a failure increments the saturating u8 counter, and reaching
MAX_ATTEMPTS writes the lock file for LOCK_SECONDS and exits the process. -/
def unlock_screen_loop (now : Nat) (attempts : Nat) (pws : List String)
    (st : Sys) : SessionResult × Sys :=
  match pws with
  | [] => (.pending, st)
  | pw :: rest =>
    match attempt_unlock st pw with
    | (.ok v, st2) => (.unlocked v, st2)
    | (.error _, st2) =>
      let attempts2 := min (attempts + 1) U8MAX
      if MAX_ATTEMPTS ≤ attempts2 then
        (.lockSet (now + LOCK_SECONDS),
          { st2 with lockFile := some (now + LOCK_SECONDS) })
      else unlock_screen_loop now attempts2 rest st2

/-- One process invocation: the lock gate runs before any passphrase is read
(app::run calls ensure_lock_not_active before unlock_screen), then the unlock
loop starts with zero failures. -/
def run_invocation (now : Nat) (pws : List String) (st : Sys) :
    SessionResult × Sys :=
  match ensure_lock_not_active st now with
  | (.refused r, st2) => (.lockedOut r, st2)
  | (.proceed, st2) => unlock_screen_loop now 0 pws st2

/-- n-fold iteration of persist_vault_with_revision (n saves in a row). -/
def persistN : Nat → Vault → String → Sys → Except VErr Vault × Sys
  | 0, v, _, st => (.ok v, st)
  | n + 1, v, p, st =>
    match persist_vault_with_revision v p st with
    | (.ok v2, st2) => persistN n v2 p st2
    | (.error e, st2) => (.error e, st2)

/-- Boolean test for a failed Except result. -/
def isError {α : Type} : Except VErr α → Bool
  | .error _ => true
  | .ok _ => false

/-- The explicit wrapped file written by `save_vault` when the random counter
stands at `r`: salt `r`, DEK `r + 1`, wrapped-key nonce `r + 2`, vault nonce
`r + 3`. -/
def mkWrapped (v : Vault) (p : String) (r : Nat) : WrappedVaultFile :=
  ⟨2, .default, .val r,
    ⟨.val 0, .val (r + 2), .val ⟨.derived p r .default, r + 2, .dekBytes (r + 1)⟩⟩,
    ⟨.val 0, .val (r + 3), .val ⟨.raw (r + 1), r + 3, .vaultBytes v⟩⟩⟩

/-! ### Concrete instances used by counterexamples and witnesses -/

/-- A vault at revision 3, behind the trusted counter below. -/
def cexVault3 : Vault := ⟨3, [], []⟩

/-- A vault at revision 20, ahead of the trusted counter below. -/
def cexVault20 : Vault := ⟨20, [], []⟩

/-- A vault at revision 10, equal to the trusted counter below. -/
def cexVault10 : Vault := ⟨10, [], []⟩

/-- A legacy single-layer ciphertext of `cexVault3` under passphrase "p". -/
def cexLegacyCt : Ciphertext := ⟨.derived "p" 0 .default, 1, .vaultBytes cexVault3⟩

/-- The parsed legacy vault file `{salt, nonce, data}` holding `cexLegacyCt`. -/
def cexLegacyRaw : VaultFileRaw :=
  ⟨none, none, none, none, none, some (.val 0), some (.val 1), some (.val cexLegacyCt)⟩

/-- Keyring whose trusted revision is 10, no legacy key, writes succeed. -/
def cexKr : Keyring := ⟨.present 10, .absent, true⟩

/-- World: legacy vault file at revision 3, no meta file, trusted revision 10. -/
def cexSys : Sys := ⟨some cexLegacyRaw, none, none, 100, cexKr⟩

/-- A legacy single-layer ciphertext of `cexVault3` under the raw keyring key 5. -/
def cexKeyCt : Ciphertext := ⟨.raw 5, 1, .vaultBytes cexVault3⟩

/-- The parsed legacy vault file holding `cexKeyCt`. -/
def cexKeyRaw : VaultFileRaw :=
  ⟨none, none, none, none, none, some (.val 0), some (.val 1), some (.val cexKeyCt)⟩

/-- A wrapped file whose version field is 3 rather than 2. -/
def cexV3File : WrappedVaultFile :=
  ⟨3, .default, .val 0, ⟨.val 0, .val 1, .val cexKeyCt⟩, ⟨.val 0, .val 2, .val cexKeyCt⟩⟩

/-- World: wrapped vault file at revision 3 under "q", trusted revision 10. -/
def stW3 : Sys := ⟨some (mkWrapped cexVault3 "q" 0).toRaw, none, none, 50, cexKr⟩

/-- World: wrapped vault file at revision 20 under "q", trusted revision 10. -/
def stW20 : Sys := ⟨some (mkWrapped cexVault20 "q" 0).toRaw, none, none, 50, cexKr⟩

/-- World: wrapped vault file at revision 10 under "q", trusted revision 10. -/
def stW10 : Sys := ⟨some (mkWrapped cexVault10 "q" 0).toRaw, none, none, 50, cexKr⟩

/-- A legacy meta file whose stored hash authenticates passphrase "m". -/
def cexMeta : Meta := ⟨⟨"m"⟩⟩

/-- Keyring with no trusted revision, legacy key 5 present, writes succeed. -/
def krKey5 : Keyring := ⟨.absent, .present 5, true⟩

/-- World: legacy vault file under keyring key 5, meta file present. -/
def stMeta : Sys := ⟨some cexKeyRaw, some cexMeta, none, 0, krKey5⟩

/-- World with no vault file at all: every unlock attempt fails. -/
def stN : Sys := ⟨none, none, none, 0, ⟨.absent, .absent, true⟩⟩

/-- World with no vault file and an active lock until time 100. -/
def stL : Sys := ⟨none, none, some 100, 0, ⟨.absent, .absent, true⟩⟩

/-! ### Helper lemmas -/

theorem default_valid : KdfParams.default.valid = true := rfl

theorem save_vault_eq (v : Vault) (p : String) (r : Nat) :
    save_vault v p r = .ok (mkWrapped v p r, r + 4) := by
  simp [save_vault, derive_key_with_params, default_valid, encrypt_with_key,
    mkWrapped, VAULT_FORMAT_VERSION]

theorem load_mkWrapped (v : Vault) (p : String) (r : Nat) :
    load_vault (mkWrapped v p r).toRaw p = .ok v := by
  simp [load_vault, mkWrapped, WrappedVaultFile.toRaw, parse_wrapped,
    VAULT_FORMAT_VERSION, b64decode, derive_key_with_params, default_valid,
    decrypt_with_key]

theorem load_mkWrapped_wrong_pass (v : Vault) (p p2 : String) (r : Nat)
    (hne : p ≠ p2) :
    load_vault (mkWrapped v p r).toRaw p2 = .error .decryptionFailed := by
  simp [load_vault, mkWrapped, WrappedVaultFile.toRaw, parse_wrapped,
    VAULT_FORMAT_VERSION, b64decode, derive_key_with_params, default_valid,
    decrypt_with_key, KeyVal.derived.injEq, hne]

theorem persist_eq (v : Vault) (p : String) (st : Sys) :
    persist_vault_with_revision v p st =
      (.ok { v with revision := satSucc v.revision },
        { st with
          vaultFile :=
            some (mkWrapped { v with revision := satSucc v.revision } p st.rng).toRaw
          rng := st.rng + 4
          kr := store_trusted_revision_best_effort (satSucc v.revision) st.kr }) := by
  simp [persist_vault_with_revision, save_vault_eq]

theorem best_effort_comp (a b : Nat) (kr : Keyring) :
    store_trusted_revision_best_effort b
        (store_trusted_revision_best_effort a kr) =
      store_trusted_revision_best_effort b kr := by
  rcases kr with ⟨re, ke, wo⟩
  cases wo <;>
    simp [store_trusted_revision_best_effort, store_trusted_revision]

theorem attempt_unlock_lockFile (st : Sys) (p : String) :
    ((attempt_unlock st p).2).lockFile = st.lockFile := by
  unfold attempt_unlock
  split
  · rfl
  · split
    · split
      · rfl
      · split <;> rfl
    · split
      · split
        · rfl
        · split
          · rfl
          · split
            · rename_i heq
              rw [persist_eq] at heq
              simp at heq
            · rename_i v2 st2 heq
              rw [persist_eq] at heq
              injection heq with h1 h2
              subst h2
              split <;> rfl
      · split
        · rfl
        · split
          · rename_i heq
            rw [persist_eq] at heq
            simp at heq
          · rename_i v2 st2 heq
            rw [persist_eq] at heq
            injection heq with h1 h2
            subst h2
            split <;> rfl

theorem is_wrapped_toRaw (w : WrappedVaultFile) :
    is_wrapped_vault_file w.toRaw = true := rfl

theorem min_step (a m : Nat) :
    min (min (a + 1) U64MAX + (m + 1)) U64MAX = min (a + (m + 1 + 1)) U64MAX := by
  unfold U64MAX; omega

theorem persistN_spec (n : Nat) : ∀ (v : Vault) (p : String) (st : Sys),
    persistN (n + 1) v p st =
      (.ok ⟨min (v.revision + (n + 1)) U64MAX, v.entries, v.notes⟩,
        ⟨some (mkWrapped ⟨min (v.revision + (n + 1)) U64MAX, v.entries, v.notes⟩ p
            (st.rng + 4 * n)).toRaw,
          st.metaFile, st.lockFile, st.rng + 4 * (n + 1),
          store_trusted_revision_best_effort (min (v.revision + (n + 1)) U64MAX) st.kr⟩) := by
  induction n with
  | zero =>
    intro v p st
    simp [persistN, persist_eq, satSucc]
  | succ m ih =>
    intro v p st
    have hstep : persistN (m + 1 + 1) v p st =
        persistN (m + 1) { v with revision := satSucc v.revision } p
          ({ st with
            vaultFile :=
              some (mkWrapped { v with revision := satSucc v.revision } p st.rng).toRaw
            rng := st.rng + 4
            kr := store_trusted_revision_best_effort (satSucc v.revision) st.kr }) := by
      simp [persistN, persist_eq]
    rw [hstep, ih]
    simp only [satSucc, best_effort_comp]
    rw [min_step]
    have e2 : st.rng + 4 + 4 * m = st.rng + 4 * (m + 1) := by ring
    have e3 : st.rng + 4 + 4 * (m + 1) = st.rng + 4 * (m + 1 + 1) := by ring
    rw [e2, e3]

/-! ### Claims -/

/-- Claim C1, counterexample: with trusted revision 10 in the secret store, an
unlock of a legacy file whose embedded revision is 3 succeeds (no
RollbackDetectedError), because the legacy branch re-persists before the
revision check. -/
theorem C1_counterexample :
    load_vault_legacy cexLegacyRaw "p" = .ok cexVault3 ∧
    cexSys.kr.revEntry = .present 10 ∧
    cexVault3.revision < 10 ∧
    (attempt_unlock cexSys "p").1 = .ok ⟨4, [], []⟩ :=
  ⟨rfl, rfl, by norm_num [cexVault3], rfl⟩

/-- Claim C1, amended: on the wrapped-v2 branch the loaded revision is
compared against the trusted revision (failing with RollbackDetectedError when
strictly smaller, best-effort advancing when strictly greater); on both legacy
branches the vault is re-persisted before the check, which increments the
revision and best-effort overwrites the trusted revision, so that whenever the
store write succeeds the unlock succeeds regardless of the previously trusted
value. -/
theorem C1_amended_thm :
    (∀ (st : Sys) (raw : VaultFileRaw) (p : String) (v : Vault) (t : Nat),
      st.vaultFile = some raw → is_wrapped_vault_file raw = true →
      load_vault raw p = .ok v → st.kr.revEntry = .present t →
      (v.revision < t →
        attempt_unlock st p = (.error (.rollbackDetected v.revision t), st)) ∧
      (t < v.revision →
        (attempt_unlock st p).1 = .ok v ∧
        (attempt_unlock st p).2.kr.revEntry =
          (if st.kr.revWriteOk then .present v.revision else .present t)) ∧
      (v.revision = t → attempt_unlock st p = (.ok v, st))) ∧
    (∀ (st : Sys) (raw : VaultFileRaw) (p : String) (v : Vault),
      st.vaultFile = some raw → is_wrapped_vault_file raw = false →
      st.metaFile = none → load_vault_legacy raw p = .ok v →
      st.kr.revWriteOk = true →
      (attempt_unlock st p).1 = .ok { v with revision := satSucc v.revision }) ∧
    (∀ (st : Sys) (raw : VaultFileRaw) (meta : Meta) (p : String) (v : Vault),
      st.vaultFile = some raw → is_wrapped_vault_file raw = false →
      st.metaFile = some meta → verify_master p meta.master_hash = .ok () →
      legacy_body_load raw p st.kr = .ok v →
      st.kr.revWriteOk = true →
      (attempt_unlock st p).1 = .ok { v with revision := satSucc v.revision }) := by
  refine ⟨?_, ?_, ?_⟩
  · intro st raw p v t hfile hw hload ht
    rcases st with ⟨vf, mf, lf, rng, ⟨re, ke, wo⟩⟩
    simp only at hfile ht
    subst hfile ht
    refine ⟨?_, ?_, ?_⟩
    · intro hlt
      simp [attempt_unlock, hw, hload, verify_loaded_revision,
        load_trusted_revision, hlt]
    · intro hgt
      have hnlt : ¬v.revision < t := by omega
      cases wo <;>
        simp [attempt_unlock, hw, hload, verify_loaded_revision,
          load_trusted_revision, hnlt, hgt, store_trusted_revision_best_effort,
          store_trusted_revision]
    · intro heqr
      subst heqr
      simp [attempt_unlock, hw, hload, verify_loaded_revision,
        load_trusted_revision]
  · intro st raw p v hfile hnw hmeta hload hwok
    rcases st with ⟨vf, mf, lf, rng, ⟨re, ke, wo⟩⟩
    simp only at hfile hmeta hwok
    subst hfile hmeta hwok
    simp [attempt_unlock, hnw, hload, persist_eq,
      store_trusted_revision_best_effort, store_trusted_revision,
      verify_loaded_revision, load_trusted_revision]
  · intro st raw meta p v hfile hnw hmeta hverify hbody hwok
    rcases st with ⟨vf, mf, lf, rng, ⟨re, ke, wo⟩⟩
    simp only at hfile hmeta hwok
    subst hfile hmeta hwok
    simp [attempt_unlock, hnw, hverify, hbody, persist_eq,
      store_trusted_revision_best_effort, store_trusted_revision,
      verify_loaded_revision, load_trusted_revision]

/-- Claim C1, witness for the amended theorem: concrete wrapped unlocks below,
at, and above the trusted revision, and concrete legacy unlocks in both legacy
branches. -/
theorem C1_amended_witness :
    attempt_unlock stW3 "q" = (.error (.rollbackDetected 3 10), stW3) ∧
    ((attempt_unlock stW20 "q").1 = .ok cexVault20 ∧
      (attempt_unlock stW20 "q").2.kr.revEntry = .present 20) ∧
    attempt_unlock stW10 "q" = (.ok cexVault10, stW10) ∧
    (attempt_unlock cexSys "p").1 = .ok ⟨4, [], []⟩ ∧
    (attempt_unlock stMeta "m").1 = .ok ⟨4, [], []⟩ := by
  refine ⟨?_, ⟨?_, ?_⟩, ?_, ?_, ?_⟩
  · exact (C1_amended_thm.1 stW3 _ "q" cexVault3 10 rfl rfl
      (load_mkWrapped _ _ _) rfl).1 (by norm_num [cexVault3])
  · exact ((C1_amended_thm.1 stW20 _ "q" cexVault20 10 rfl rfl
      (load_mkWrapped _ _ _) rfl).2.1 (by norm_num [cexVault20])).1
  · have h := ((C1_amended_thm.1 stW20 _ "q" cexVault20 10 rfl rfl
      (load_mkWrapped _ _ _) rfl).2.1 (by norm_num [cexVault20])).2
    simpa using h
  · exact (C1_amended_thm.1 stW10 _ "q" cexVault10 10 rfl rfl
      (load_mkWrapped _ _ _) rfl).2.2 rfl
  · exact C1_amended_thm.2.1 cexSys _ "p" cexVault3 rfl rfl rfl rfl rfl
  · exact C1_amended_thm.2.2 stMeta _ cexMeta "m" cexVault3 rfl rfl rfl rfl rfl rfl

/-- Claim C2, counterexample: with trusted revision 10, the legacy-migration
unlock of a revision-3 file writes trusted revision 4, a strict decrease. -/
theorem C2_counterexample :
    cexSys.kr.revEntry = .present 10 ∧
    (attempt_unlock cexSys "p").2.kr.revEntry = .present 4 ∧
    (4 : Nat) < 10 := ⟨rfl, rfl, by norm_num⟩

/-- Claim C2, amended: revision verification itself never lowers the stored
trusted revision, but a save (persist_vault_with_revision) unconditionally
writes the saved vault's incremented revision, with no comparison against the
stored value, so the trusted revision can decrease across a save or a
legacy-migration unlock of a lower-revision vault. -/
theorem C2_amended_thm :
    (∀ (v : Vault) (kr : Keyring) (t t2 : Nat),
      kr.revEntry = .present t →
      (verify_loaded_revision v kr).2.revEntry = .present t2 →
      t ≤ t2) ∧
    (∀ (v : Vault) (p : String) (st : Sys),
      st.kr.revWriteOk = true →
      (persist_vault_with_revision v p st).2.kr.revEntry =
        .present (satSucc v.revision)) := by
  constructor
  · intro v kr t t2 ht h2
    rcases kr with ⟨re, ke, wo⟩
    simp only at ht
    subst ht
    by_cases hlt : v.revision < t
    · simp [verify_loaded_revision, load_trusted_revision, hlt] at h2
      omega
    · by_cases hgt : t < v.revision
      · cases wo <;>
          simp [verify_loaded_revision, load_trusted_revision, hlt, hgt,
            store_trusted_revision_best_effort, store_trusted_revision] at h2 <;>
          omega
      · simp [verify_loaded_revision, load_trusted_revision, hlt, hgt] at h2
        omega
  · intro v p st hwok
    rw [persist_eq]
    simp [store_trusted_revision_best_effort, store_trusted_revision, hwok]

/-- Claim C2, witness for the amended theorem: verification raises 10 to 20,
and a concrete persist of a revision-3 vault writes trusted revision 4. -/
theorem C2_amended_witness :
    (10 : Nat) ≤ 20 ∧
    (persist_vault_with_revision cexVault3 "p" cexSys).2.kr.revEntry = .present 4 :=
  ⟨C2_amended_thm.1 cexVault20 cexKr 10 20 rfl rfl,
    (C2_amended_thm.2 cexVault3 "p" cexSys rfl).trans (by decide)⟩

/-- Claim C3: n+1 successive saves of vault V under passphrase P produce a file
that loads under P to a vault with the same entries and notes and with revision
equal to V's revision plus the number of saves, saturating at u64::MAX. -/
theorem C3_round_trip (n : Nat) (v : Vault) (p : String) (st : Sys) :
    (persistN (n + 1) v p st).1 =
      .ok ⟨min (v.revision + (n + 1)) U64MAX, v.entries, v.notes⟩ ∧
    ∃ raw, (persistN (n + 1) v p st).2.vaultFile = some raw ∧
      load_vault raw p =
        .ok ⟨min (v.revision + (n + 1)) U64MAX, v.entries, v.notes⟩ := by
  rw [persistN_spec]
  exact ⟨rfl, _, rfl, load_mkWrapped _ _ _⟩

/-- Claim C4: loading a saved vault file with any passphrase other than the one
it was saved under fails with the generic DecryptionError and yields no vault
data. -/
theorem C4_wrong_passphrase (v : Vault) (p p2 : String) (r r2 : Nat)
    (w : WrappedVaultFile) (hne : p ≠ p2)
    (hs : save_vault v p r = .ok (w, r2)) :
    load_vault w.toRaw p2 = .error .decryptionFailed := by
  rw [save_vault_eq] at hs
  injection hs with h
  injection h with h1 h2
  subst h1
  exact load_mkWrapped_wrong_pass v p p2 r hne

/-- Claim C4, witness: a concrete save under "a" fails to load under "b". -/
theorem C4_witness :
    save_vault cexVault3 "a" 0 = .ok (mkWrapped cexVault3 "a" 0, 4) ∧
    load_vault (mkWrapped cexVault3 "a" 0).toRaw "b" = .error .decryptionFailed :=
  ⟨save_vault_eq _ _ _,
    C4_wrong_passphrase cexVault3 "a" "b" 0 4 (mkWrapped cexVault3 "a" 0)
      (by decide) (save_vault_eq _ _ _)⟩

/-- Claim C5, counterexample: two successive saves of the identical vault with
the same passphrase produce files whose kdf cost-parameter field is identical
(and so is the unused legacy salt placeholder inside each record), so it is not
the case that every field except version changes on every save. -/
theorem C5_counterexample :
    save_vault cexVault3 "p" 0 = .ok (mkWrapped cexVault3 "p" 0, 4) ∧
    save_vault cexVault3 "p" 4 = .ok (mkWrapped cexVault3 "p" 4, 8) ∧
    (mkWrapped cexVault3 "p" 0).kdf = (mkWrapped cexVault3 "p" 4).kdf ∧
    (mkWrapped cexVault3 "p" 0).wrapped_key.salt =
      (mkWrapped cexVault3 "p" 4).wrapped_key.salt :=
  ⟨save_vault_eq _ _ _, save_vault_eq _ _ _, rfl, rfl⟩

/-- Claim C5, amended: two successive saves differ in kdf_salt, in both nonces
and in both ciphertexts (fresh salt, DEK and nonces each save), while the
version, the kdf cost parameters and the legacy salt placeholders of the two
records are unchanged. -/
theorem C5_amended_freshness (v : Vault) (p : String) (r r1 r2 : Nat)
    (w1 w2 : WrappedVaultFile)
    (h1 : save_vault v p r = .ok (w1, r1))
    (h2 : save_vault v p r1 = .ok (w2, r2)) :
    w1.kdf_salt ≠ w2.kdf_salt ∧
    w1.wrapped_key.nonce ≠ w2.wrapped_key.nonce ∧
    w1.vault.nonce ≠ w2.vault.nonce ∧
    w1.wrapped_key.data ≠ w2.wrapped_key.data ∧
    w1.vault.data ≠ w2.vault.data ∧
    w1.version = w2.version ∧ w1.kdf = w2.kdf ∧
    w1.wrapped_key.salt = w2.wrapped_key.salt ∧
    w1.vault.salt = w2.vault.salt := by
  rw [save_vault_eq] at h1 h2
  injection h1 with h1
  injection h1 with h1a h1b
  injection h2 with h2
  injection h2 with h2a h2b
  subst h1a h1b h2a
  refine ⟨?_, ?_, ?_, ?_, ?_, rfl, rfl, rfl, rfl⟩ <;>
    simp [mkWrapped, B64.val.injEq, Ciphertext.mk.injEq, KeyVal.derived.injEq,
      Plain.dekBytes.injEq, KeyVal.raw.injEq]

/-- Claim C5, witness for the amended theorem, at a concrete vault and
passphrase with the random counter at 0 and then at 4. -/
theorem C5_amended_witness :
    (mkWrapped cexVault3 "p" 0).kdf_salt ≠ (mkWrapped cexVault3 "p" 4).kdf_salt ∧
    (mkWrapped cexVault3 "p" 0).wrapped_key.nonce ≠
      (mkWrapped cexVault3 "p" 4).wrapped_key.nonce ∧
    (mkWrapped cexVault3 "p" 0).vault.nonce ≠ (mkWrapped cexVault3 "p" 4).vault.nonce ∧
    (mkWrapped cexVault3 "p" 0).wrapped_key.data ≠
      (mkWrapped cexVault3 "p" 4).wrapped_key.data ∧
    (mkWrapped cexVault3 "p" 0).vault.data ≠ (mkWrapped cexVault3 "p" 4).vault.data ∧
    (mkWrapped cexVault3 "p" 0).version = (mkWrapped cexVault3 "p" 4).version ∧
    (mkWrapped cexVault3 "p" 0).kdf = (mkWrapped cexVault3 "p" 4).kdf ∧
    (mkWrapped cexVault3 "p" 0).wrapped_key.salt =
      (mkWrapped cexVault3 "p" 4).wrapped_key.salt ∧
    (mkWrapped cexVault3 "p" 0).vault.salt = (mkWrapped cexVault3 "p" 4).vault.salt :=
  C5_amended_freshness cexVault3 "p" 0 4 8 _ _ (save_vault_eq _ _ _) (save_vault_eq _ _ _)

/-- Claim C6: an invocation while the lock file holds a future unlock_at is
refused with the remaining wait and no state change, for every passphrase
sequence; an invocation at or after unlock_at deletes the lock file and
proceeds to the normal unlock loop; starting from zero failures, exactly three
consecutive failed attempts write a lock whose unlock_at is now + 120 and end
the process, while two failed attempts leave no lock. -/
theorem C6_thm :
    (∀ (st : Sys) (now u : Nat) (pws : List String),
      st.lockFile = some u → now < u →
      run_invocation now pws st = (.lockedOut (u - now), st)) ∧
    (∀ (st : Sys) (now u : Nat) (pws : List String),
      st.lockFile = some u → u ≤ now →
      run_invocation now pws st =
        unlock_screen_loop now 0 pws { st with lockFile := none }) ∧
    (∀ (st : Sys) (now : Nat) (p1 p2 p3 : String) (rest : List String),
      st.lockFile = none →
      isError (attempt_unlock st p1).1 = true →
      isError (attempt_unlock ((attempt_unlock st p1).2) p2).1 = true →
      isError (attempt_unlock ((attempt_unlock ((attempt_unlock st p1).2) p2).2) p3).1
          = true →
      run_invocation now (p1 :: p2 :: p3 :: rest) st =
        (.lockSet (now + LOCK_SECONDS),
          { (attempt_unlock ((attempt_unlock ((attempt_unlock st p1).2) p2).2) p3).2
              with lockFile := some (now + LOCK_SECONDS) })) ∧
    (∀ (st : Sys) (now : Nat) (p1 p2 : String),
      st.lockFile = none →
      isError (attempt_unlock st p1).1 = true →
      isError (attempt_unlock ((attempt_unlock st p1).2) p2).1 = true →
      (run_invocation now [p1, p2] st).1 = .pending ∧
      (run_invocation now [p1, p2] st).2.lockFile = none) := by
  refine ⟨?_, ?_, ?_, ?_⟩
  · intro st now u pws hl hlt
    rcases st with ⟨vf, mf, lf, rng, kr⟩
    simp only at hl
    subst hl
    simp [run_invocation, ensure_lock_not_active, hlt]
  · intro st now u pws hl hle
    rcases st with ⟨vf, mf, lf, rng, kr⟩
    simp only at hl
    subst hl
    have hnlt : ¬now < u := by omega
    simp [run_invocation, ensure_lock_not_active, hnlt]
  · intro st now p1 p2 p3 rest hl h1 h2 h3
    rcases ha1 : attempt_unlock st p1 with ⟨r1, st1⟩
    rcases ha2 : attempt_unlock st1 p2 with ⟨r2, st2⟩
    rcases ha3 : attempt_unlock st2 p3 with ⟨r3, st3⟩
    rw [ha1] at h1 h2 h3
    rw [ha2] at h2 h3
    rw [ha3] at h3
    simp only at h1 h2 h3
    cases r1 with
    | ok v => simp [isError] at h1
    | error e1 =>
      cases r2 with
      | ok v => simp [isError] at h2
      | error e2 =>
        cases r3 with
        | ok v => simp [isError] at h3
        | error e3 =>
          rcases st with ⟨vf, mf, lf, rng, kr⟩
          simp only at hl
          subst hl
          simp [run_invocation, ensure_lock_not_active, unlock_screen_loop,
            ha1, ha2, ha3, U8MAX, MAX_ATTEMPTS, LOCK_SECONDS]
  · intro st now p1 p2 hl h1 h2
    rcases ha1 : attempt_unlock st p1 with ⟨r1, st1⟩
    rcases ha2 : attempt_unlock st1 p2 with ⟨r2, st2⟩
    rw [ha1] at h1 h2
    rw [ha2] at h2
    simp only at h1 h2
    cases r1 with
    | ok v => simp [isError] at h1
    | error e1 =>
      cases r2 with
      | ok v => simp [isError] at h2
      | error e2 =>
        have hlock2 : st2.lockFile = none := by
          have e1 := attempt_unlock_lockFile st p1
          have e2 := attempt_unlock_lockFile st1 p2
          rw [ha1] at e1
          rw [ha2] at e2
          simp only at e1 e2
          rw [e2, e1, hl]
        rcases st with ⟨vf, mf, lf, rng, kr⟩
        simp only at hl
        subst hl
        constructor
        · simp [run_invocation, ensure_lock_not_active, unlock_screen_loop,
            ha1, ha2, U8MAX, MAX_ATTEMPTS]
        · simp [run_invocation, ensure_lock_not_active, unlock_screen_loop,
            ha1, ha2, U8MAX, MAX_ATTEMPTS, hlock2]

/-- Claim C6, witness: with no vault file every attempt fails; at time 40 a
lock until 100 refuses with 60 seconds remaining, at time 100 it is consumed,
three failures at time 7 set a lock until 127, two failures set none. -/
theorem C6_witness :
    run_invocation 40 ["x"] stL = (.lockedOut 60, stL) ∧
    run_invocation 100 ["x"] stL =
      unlock_screen_loop 100 0 ["x"] { stL with lockFile := none } ∧
    run_invocation 7 ["a", "b", "c"] stN =
      (.lockSet 127, { stN with lockFile := some 127 }) ∧
    (run_invocation 7 ["a", "b"] stN).1 = .pending ∧
    (run_invocation 7 ["a", "b"] stN).2.lockFile = none := by
  refine ⟨?_, ?_, ?_, ?_, ?_⟩
  · exact C6_thm.1 stL 40 100 ["x"] rfl (by norm_num)
  · exact C6_thm.2.1 stL 100 100 ["x"] rfl (by norm_num)
  · exact C6_thm.2.2.1 stN 7 "a" "b" "c" [] rfl rfl rfl rfl
  · exact (C6_thm.2.2.2 stN 7 "a" "b" rfl rfl rfl).1
  · exact (C6_thm.2.2.2 stN 7 "a" "b" rfl rfl rfl).2

/-- Claim C7: on the legacy-meta branch the passphrase is authenticated against
the stored hash first (a mismatch is terminal with no decryption and no state
change); the vault body is decrypted with the keyring raw key first when one is
present, and the password-derived legacy decryption runs only when that
decryption fails or no key is present; any successful legacy decrypt is
immediately re-persisted in the wrapped-v2 format. -/
theorem C7_thm :
    (∀ (st : Sys) (raw : VaultFileRaw) (meta : Meta) (p : String) (e : VErr),
      st.vaultFile = some raw → is_wrapped_vault_file raw = false →
      st.metaFile = some meta → verify_master p meta.master_hash = .error e →
      attempt_unlock st p = (.error e, st)) ∧
    (∀ (raw : VaultFileRaw) (p : String) (kr : Keyring) (k : Nat) (v : Vault),
      kr.keyEntry = .present k → load_vault_with_key raw k = .ok v →
      legacy_body_load raw p kr = .ok v) ∧
    (∀ (raw : VaultFileRaw) (p : String) (kr : Keyring) (k : Nat) (e : VErr),
      kr.keyEntry = .present k → load_vault_with_key raw k = .error e →
      legacy_body_load raw p kr = load_vault_legacy raw p) ∧
    (∀ (raw : VaultFileRaw) (p : String) (kr : Keyring),
      kr.keyEntry = .absent →
      legacy_body_load raw p kr = load_vault_legacy raw p) ∧
    (∀ (st : Sys) (raw : VaultFileRaw) (meta : Meta) (p : String) (v : Vault),
      st.vaultFile = some raw → is_wrapped_vault_file raw = false →
      st.metaFile = some meta → verify_master p meta.master_hash = .ok () →
      legacy_body_load raw p st.kr = .ok v →
      (attempt_unlock st p).2.vaultFile =
        some (mkWrapped { v with revision := satSucc v.revision } p st.rng).toRaw ∧
      is_wrapped_vault_file
        (mkWrapped { v with revision := satSucc v.revision } p st.rng).toRaw = true ∧
      load_vault
          (mkWrapped { v with revision := satSucc v.revision } p st.rng).toRaw p =
        .ok { v with revision := satSucc v.revision }) := by
  refine ⟨?_, ?_, ?_, ?_, ?_⟩
  · intro st raw meta p e hfile hnw hmeta hverify
    rcases st with ⟨vf, mf, lf, rng, kr⟩
    simp only at hfile hmeta
    subst hfile hmeta
    simp [attempt_unlock, hnw, hverify]
  · intro raw p kr k v hk hload
    rcases kr with ⟨re, ke, wo⟩
    simp only at hk
    subst hk
    simp [legacy_body_load, load_wrapped_key, hload]
  · intro raw p kr k e hk hload
    rcases kr with ⟨re, ke, wo⟩
    simp only at hk
    subst hk
    simp [legacy_body_load, load_wrapped_key, hload]
  · intro raw p kr hk
    rcases kr with ⟨re, ke, wo⟩
    simp only at hk
    subst hk
    simp [legacy_body_load, load_wrapped_key]
  · intro st raw meta p v hfile hnw hmeta hverify hbody
    rcases st with ⟨vf, mf, lf, rng, kr⟩
    simp only at hfile hmeta
    subst hfile hmeta
    refine ⟨?_, is_wrapped_toRaw _, load_mkWrapped _ _ _⟩
    simp only at hbody
    simp only [attempt_unlock, hnw, hverify, hbody, persist_eq]
    split
    all_goals split <;> simp_all

/-- Claim C7, witness: concrete instances of every branch of the legacy-meta
unlock protocol. -/
theorem C7_witness :
    attempt_unlock stMeta "x" = (.error .passwordMismatch, stMeta) ∧
    legacy_body_load cexKeyRaw "m" stMeta.kr = .ok cexVault3 ∧
    legacy_body_load cexLegacyRaw "p" krKey5 = load_vault_legacy cexLegacyRaw "p" ∧
    legacy_body_load cexLegacyRaw "p" cexKr = load_vault_legacy cexLegacyRaw "p" ∧
    ((attempt_unlock stMeta "m").2.vaultFile =
        some (mkWrapped ⟨4, [], []⟩ "m" 0).toRaw ∧
      is_wrapped_vault_file (mkWrapped ⟨4, [], []⟩ "m" 0).toRaw = true ∧
      load_vault (mkWrapped ⟨4, [], []⟩ "m" 0).toRaw "m" = .ok ⟨4, [], []⟩) := by
  refine ⟨?_, ?_, ?_, ?_, ?_⟩
  · exact C7_thm.1 stMeta cexKeyRaw cexMeta "x" .passwordMismatch rfl rfl rfl rfl
  · exact C7_thm.2.1 cexKeyRaw "m" stMeta.kr 5 cexVault3 rfl rfl
  · exact C7_thm.2.2.1 cexLegacyRaw "p" krKey5 5 .decryptionFailed rfl rfl
  · exact C7_thm.2.2.2.1 cexLegacyRaw "p" cexKr rfl
  · exact C7_thm.2.2.2.2 stMeta cexKeyRaw cexMeta "m" cexVault3 rfl rfl rfl rfl rfl

/-- Claim C8: a parsed vault file is detected as wrapped v2 exactly when all
five fields version, kdf, kdf_salt, wrapped_key and vault are present; and a
wrapped file accepted by the parser whose version is not 2 fails to load with
the unsupported-version format error. -/
theorem C8_detection_and_version (raw : VaultFileRaw) :
    (is_wrapped_vault_file raw = true ↔
      (raw.version.isSome = true ∧ raw.kdf.isSome = true ∧
        raw.kdf_salt.isSome = true ∧ raw.wrapped_key.isSome = true ∧
        raw.vault.isSome = true)) ∧
    (∀ (p : String) (w : WrappedVaultFile),
      parse_wrapped raw = .ok w → w.version ≠ VAULT_FORMAT_VERSION →
      load_vault raw p = .error (.unsupportedVersion w.version)) := by
  constructor
  · simp [is_wrapped_vault_file, Bool.and_eq_true, and_assoc]
  · intro p w hp hv
    simp [load_vault, hp, hv]

/-- Claim C8, witness: a concrete version-3 wrapped file is detected as
wrapped and fails to load with the unsupported-version error. -/
theorem C8_witness :
    load_vault cexV3File.toRaw "p" = .error (.unsupportedVersion 3) ∧
    is_wrapped_vault_file cexV3File.toRaw = true :=
  ⟨(C8_detection_and_version cexV3File.toRaw).2 "p" cexV3File rfl (by decide),
    ((C8_detection_and_version cexV3File.toRaw).1).mpr (by decide)⟩

/-- Claim C9, counterexample: a record whose nonce or ciphertext field is not
valid base64 fails with the propagated decode error, which is a different
message from the generic decryption-failure message. -/
theorem C9_counterexample :
    decrypt_with_key (.raw 0) ⟨.val 0, .malformed 0, .val cexKeyCt⟩ =
      .error .base64Decode ∧
    decrypt_with_key (.raw 0) ⟨.val 0, .val 1, .malformed 0⟩ = .error .base64Decode ∧
    VErr.base64Decode ≠ VErr.decryptionFailed := ⟨rfl, rfl, by decide⟩

/-- Claim C9, amended: every AEAD authentication failure on a well-encoded
record (wrong key, tampered ciphertext, mismatched nonce) is reported with the
single generic decryption message, for both the key-based and the
password-based decryption; corrupted base64 encodings are instead reported
with a distinct propagated decode error. -/
theorem C9_amended_generic_message :
    (∀ (key : KeyVal) (s : B64 Nat) (n : Nat) (ct : Ciphertext),
      ¬(ct.key = key ∧ ct.nonce = n) →
      decrypt_with_key key ⟨s, .val n, .val ct⟩ = .error .decryptionFailed) ∧
    (∀ (p : String) (sa n : Nat) (ct : Ciphertext),
      ¬(ct.key = .derived p sa KdfParams.default ∧ ct.nonce = n) →
      decrypt_with_password p ⟨.val sa, .val n, .val ct⟩ = .error .decryptionFailed) ∧
    (∀ (key : KeyVal) (s : B64 Nat) (i : Nat) (d : B64 Ciphertext),
      decrypt_with_key key ⟨s, .malformed i, d⟩ = .error .base64Decode) := by
  refine ⟨?_, ?_, ?_⟩
  · intro key s n ct h
    simp [decrypt_with_key, b64decode, h]
  · intro p sa n ct h
    simp [decrypt_with_password, b64decode, derive_key_with_params, default_valid, h]
  · intro key s i d
    rfl

/-- Claim C9, witness for the amended theorem: wrong-key failures in both
decryption paths produce the generic message. -/
theorem C9_amended_witness :
    decrypt_with_key (.raw 0) ⟨.val 0, .val 1, .val cexKeyCt⟩ =
      .error .decryptionFailed ∧
    decrypt_with_password "q" ⟨.val 0, .val 1, .val cexLegacyCt⟩ =
      .error .decryptionFailed :=
  ⟨C9_amended_generic_message.1 (.raw 0) (.val 0) 1 cexKeyCt (by decide),
    C9_amended_generic_message.2.1 "q" 0 1 cexLegacyCt (by decide)⟩

/-- Claim C10: when the trusted-revision read fails with a store error (rather
than the entry being absent), verify_loaded_revision returns success, performs
no comparison and leaves the store untouched, so no RollbackDetectedError can
be raised for that attempt, for every vault. -/
theorem C10_store_error_skips_rollback (v : Vault) (ke : StoreVal) (wb : Bool) :
    verify_loaded_revision v ⟨.failed, ke, wb⟩ = (.ok (), ⟨.failed, ke, wb⟩) := rfl

end Vaulty
